import Mathlib

/-!
Verification development for the `PrinceNarteh/monorepo-boilerplate` Go backend.

Shallow embedding of:
* `internal/errs/errors.go` — the `AppError` taxonomy and its constructors;
* `internal/repositories/user_repository.go` — the `userRepository` CRUD
  operations, modelled against an abstract PostgreSQL table state;
* `internal/config/config.go` + `cmd/go-boilerplate/main.go` — the
  `LoadConfig` control flow and the startup sequence;
* `internal/libs/validator.go` — `ValidateStruct` / `getErrorMessage`;
* `internal/routers/router.go` — route dispatch through Go's
  `http.ServeMux` (Go 1.22 method+path patterns).

Machine integers are modelled as `Int`/`Nat` (none of the embedded code
relies on overflow), `time.Time` values as `Nat` ticks, and Go's
`(T, error)` returns as `Except`.
-/

namespace Boilerplate

/-! ## internal/errs/errors.go -/

/-- Structure `AppError` from `errs/errors.go`: code, message, and HTTP status. -/
structure AppError where
  code : String
  message : String
  status : Nat
deriving DecidableEq, Repr

-- net/http status constants used by errors.go
def statusBadRequest : Nat := 400
def statusNotFound : Nat := 404
def statusUnauthorized : Nat := 401
def statusForbidden : Nat := 403
def statusInternalServerError : Nat := 500
def statusConflict : Nat := 409
def statusTooManyRequests : Nat := 429

-- Common error codes (errors.go, `const` block)
def ErrCodeValidation : String := "VALIDATION_ERROR"
def ErrCodeNotFound : String := "NOT_FOUND"
def ErrCodeUnauthorized : String := "UNAUTHORIZED"
def ErrCodeForbidden : String := "FORBIDDEN"
def ErrCodeInternal : String := "INTERNAL_ERROR"
def ErrCodeBadRequest : String := "BAD_REQUEST"
def ErrCodeConflict : String := "CONFLICT"
def ErrCodeTooManyRequests : String := "TOO_MANY_REQUESTS"

-- Predefined errors (errors.go, `var` block)
def ErrValidation : AppError :=
  ⟨ErrCodeValidation, "Validation failed", statusBadRequest⟩
def ErrNotFound : AppError :=
  ⟨ErrCodeNotFound, "Resource not found", statusNotFound⟩
def ErrUnauthorized : AppError :=
  ⟨ErrCodeUnauthorized, "Unauthorized", statusUnauthorized⟩
def ErrForbidden : AppError :=
  ⟨ErrCodeForbidden, "Forbidden", statusForbidden⟩
def ErrInternal : AppError :=
  ⟨ErrCodeInternal, "Internal server error", statusInternalServerError⟩
def ErrBadRequest : AppError :=
  ⟨ErrCodeBadRequest, "Bad request", statusBadRequest⟩
def ErrConflict : AppError :=
  ⟨ErrCodeConflict, "Resource conflict", statusConflict⟩
def ErrTooManyRequests : AppError :=
  ⟨ErrCodeTooManyRequests, "Too many requests", statusTooManyRequests⟩

/-- Constructor `New` from errors.go: generic constructor with explicit code/status. -/
def New (code message : String) (status : Nat) : AppError :=
  ⟨code, message, status⟩

/-- Constructor `NewValidation` from errors.go. -/
def NewValidation (message : String) : AppError :=
  ⟨ErrCodeValidation, message, statusBadRequest⟩

/-- Constructor `NewNotFound` from errors.go (message is `"%s not found"` of the resource). -/
def NewNotFound (resource : String) : AppError :=
  ⟨ErrCodeNotFound, resource ++ " not found", statusNotFound⟩

/-- Constructor `NewInternal` from errors.go. -/
def NewInternal (message : String) : AppError :=
  ⟨ErrCodeInternal, message, statusInternalServerError⟩

/-- The canonical code → status table as the spec states it (§4.2):
`VALIDATION_ERROR`→400, `NOT_FOUND`→404, `UNAUTHORIZED`→401,
`FORBIDDEN`→403, `INTERNAL_ERROR`→500, `BAD_REQUEST`→400, `CONFLICT`→409,
`TOO_MANY_REQUESTS`→429. Stated from the spec's words so the code-side
constructors can be compared against it. -/
def canonicalStatus (code : String) : Option Nat :=
  if code = "VALIDATION_ERROR" then some 400
  else if code = "NOT_FOUND" then some 404
  else if code = "UNAUTHORIZED" then some 401
  else if code = "FORBIDDEN" then some 403
  else if code = "INTERNAL_ERROR" then some 500
  else if code = "BAD_REQUEST" then some 400
  else if code = "CONFLICT" then some 409
  else if code = "TOO_MANY_REQUESTS" then some 429
  else none

/-- The eight predefined errors of errors.go. -/
def predefinedErrors : List AppError :=
  [ErrValidation, ErrNotFound, ErrUnauthorized, ErrForbidden,
   ErrInternal, ErrBadRequest, ErrConflict, ErrTooManyRequests]

/-- C1: every `AppError` built with a fixed code — the eight predefined
errors and the outputs of `NewValidation`, `NewNotFound`, `NewInternal`
for any message — carries exactly the canonical HTTP status of its code;
no fixed code is paired with a different status. -/
theorem C1_fixed_codes_carry_canonical_status :
    (∀ e ∈ predefinedErrors, canonicalStatus e.code = some e.status)
    ∧ (∀ m : String, canonicalStatus (NewValidation m).code
        = some (NewValidation m).status)
    ∧ (∀ r : String, canonicalStatus (NewNotFound r).code
        = some (NewNotFound r).status)
    ∧ (∀ m : String, canonicalStatus (NewInternal m).code
        = some (NewInternal m).status) := by
  refine ⟨?_, fun m => rfl, fun r => rfl, fun m => rfl⟩
  decide

/-! ## internal/repositories/user_repository.go

The repository issues single SQL statements against the `users` table
(`users(id SERIAL PRIMARY KEY, email VARCHAR UNIQUE NOT NULL, created_at,
updated_at)`). We embed the statements' semantics over an abstract table
state: a list of rows plus the sequence's next id. `NOW()` is the
per-statement transaction timestamp, passed explicitly to the mutating
operations. Connectivity faults of the pool are outside the model; the
storage errors that remain are pgx's `ErrNoRows` (from `QueryRow.Scan`
with no result row) and the unique-constraint violation on `email`. -/

/-- Struct `models.User`: ID int, Email string, CreatedAt/UpdatedAt time.Time
(timestamps as abstract ticks). -/
structure User where
  id : Int
  email : String
  createdAt : Nat
  updatedAt : Nat
deriving DecidableEq, Repr

/-- Storage-level error causes surfaced by pgx. -/
inductive PgErr where
  | noRows
  | uniqueViolation (constraint : String)
  | other (msg : String)
deriving DecidableEq, Repr

/-- A Go error produced by `fmt.Errorf("...: %w", cause)`: operation
context wrapped around the storage cause (the cause stays reachable via
`errors.Is`/`errors.As`). -/
inductive GoError where
  | wrap (msg : String) (cause : PgErr)
deriving DecidableEq, Repr

/-- The wrapped cause, as `errors.Is`/`errors.As` recover it. -/
def GoError.cause : GoError → PgErr
  | .wrap _ c => c

/-- Modelled from the spec: the handler-side classification layer is not
under `src/` (only the repository is). Spec §7: "storage-layer failures
are wrapped with operation context and returned up to the handler, which
classifies them into the taxonomy (e.g., unique-violation → `Conflict`,
no-rows → `NotFound`) before they reach the error-writing boundary.
Unclassified/unexpected failures default to `Internal`." -/
def classify (e : GoError) : AppError :=
  match e.cause with
  | .noRows => ErrNotFound
  | .uniqueViolation _ => ErrConflict
  | .other _ => ErrInternal

/-- The `users` table together with the `SERIAL` sequence state. -/
structure DBState where
  rows : List User
  nextId : Int
deriving DecidableEq, Repr

/-- The `SERIAL` sequence hands out ids never used before, and `email` is
`UNIQUE`: well-formedness the storage engine maintains. -/
def DBState.WF (st : DBState) : Prop :=
  (∀ u ∈ st.rows, u.id < st.nextId)
  ∧ (st.rows.map User.id).Nodup

/-- Operation `GetByID`: `SELECT id, email, created_at, updated_at FROM users WHERE
id = $1`, scanned via `QueryRow` (first matching row; `ErrNoRows` when
none), errors wrapped as `"failed to get user by id: %w"`. -/
def getByID (st : DBState) (id : Int) : Except GoError User :=
  match st.rows.find? (fun u => u.id == id) with
  | some u => .ok u
  | none => .error (.wrap "failed to get user by id" .noRows)

/-- Operation `GetByEmail`: same query keyed by email, context
`"failed to get user by email: %w"`. -/
def getByEmail (st : DBState) (email : String) : Except GoError User :=
  match st.rows.find? (fun u => u.email == email) with
  | some u => .ok u
  | none => .error (.wrap "failed to get user by email" .noRows)

/-- Operation `Create`: `INSERT INTO users (email, created_at, updated_at) VALUES
($1, NOW(), NOW()) RETURNING id, email, created_at, updated_at`. Only
`user.Email` is bound (`$1`); the id comes from the sequence, both
timestamps from the statement's `NOW()`. A duplicate email violates the
`UNIQUE` constraint; errors are wrapped as `"failed to create user: %w"`. -/
def create (st : DBState) (now : Nat) (user : User) : Except GoError (User × DBState) :=
  if st.rows.any (fun u => u.email == user.email) then
    .error (.wrap "failed to create user" (.uniqueViolation "users_email_key"))
  else
    let createdUser : User := ⟨st.nextId, user.email, now, now⟩
    .ok (createdUser, ⟨st.rows ++ [createdUser], st.nextId + 1⟩)

/-- Operation `Update`: `UPDATE users SET email = $2, updated_at = NOW() WHERE id =
$1 RETURNING ...`. All rows matching the id are updated (the primary key
makes that at most one); `QueryRow.Scan` yields `ErrNoRows` when no row
was updated. Errors wrapped as `"failed to update user: %w"`. -/
def update (st : DBState) (now : Nat) (user : User) : Except GoError (User × DBState) :=
  match st.rows.find? (fun u => u.id == user.id) with
  | none => .error (.wrap "failed to update user" .noRows)
  | some old =>
      let rows' := st.rows.map (fun u =>
        if u.id == user.id then { u with email := user.email, updatedAt := now } else u)
      .ok ({ old with email := user.email, updatedAt := now }, ⟨rows', st.nextId⟩)

/-- Operation `Delete`: `DELETE FROM users WHERE id = $1` via `Exec`; the affected
row count is discarded, so a missing row is still a success. -/
def delete (st : DBState) (id : Int) : Except GoError DBState :=
  .ok ⟨st.rows.filter (fun u => !(u.id == id)), st.nextId⟩

/-- Descending comparison on `created_at`, as a `Bool` relation for
`mergeSort`. -/
def createdDesc (a b : User) : Bool := b.createdAt ≤ a.createdAt

/-- Operation `List`: `SELECT ... FROM users ORDER BY created_at DESC LIMIT $1
OFFSET $2`: sort by creation time descending, skip `offset` rows, return
at most `limit` rows. -/
def list (st : DBState) (limit offset : Nat) : Except GoError (List User) :=
  .ok ((((st.rows).mergeSort createdDesc).drop offset).take limit)

/-- C2: `GetByID` on an id with no matching row fails, and the failure
classifies as `NotFound` (code `NOT_FOUND`, status 404) rather than as an
internal error; `GetByEmail` on an absent email satisfies the same
contract. -/
theorem C2_get_missing_fails_not_found (st : DBState) (id : Int) (email : String)
    (hid : ∀ u ∈ st.rows, u.id ≠ id)
    (hem : ∀ u ∈ st.rows, u.email ≠ email) :
    (∃ e, getByID st id = .error e
      ∧ classify e = ErrNotFound ∧ classify e ≠ ErrInternal)
    ∧ (∃ e, getByEmail st email = .error e
      ∧ classify e = ErrNotFound ∧ classify e ≠ ErrInternal)
    ∧ ErrNotFound.code = ErrCodeNotFound ∧ ErrNotFound.status = 404 := by
  have h1 : st.rows.find? (fun u => u.id == id) = none := by
    rw [List.find?_eq_none]
    intro u hu
    simpa using hid u hu
  have h2 : st.rows.find? (fun u => u.email == email) = none := by
    rw [List.find?_eq_none]
    intro u hu
    simpa using hem u hu
  refine ⟨⟨.wrap "failed to get user by id" .noRows, ?_, rfl, by decide⟩,
    ⟨.wrap "failed to get user by email" .noRows, ?_, rfl, by decide⟩, rfl, rfl⟩
  · rw [getByID, h1]
  · rw [getByEmail, h2]

/-- C2 witness: concrete one-row table, missing id 5 and missing email. -/
theorem C2_get_missing_fails_not_found_witness :
    (∃ e, getByID ⟨[⟨1, "a@b.c", 0, 0⟩], 2⟩ 5 = .error e
      ∧ classify e = ErrNotFound ∧ classify e ≠ ErrInternal)
    ∧ (∃ e, getByEmail ⟨[⟨1, "a@b.c", 0, 0⟩], 2⟩ "x@y.z" = .error e
      ∧ classify e = ErrNotFound ∧ classify e ≠ ErrInternal)
    ∧ ErrNotFound.code = ErrCodeNotFound ∧ ErrNotFound.status = 404 :=
  C2_get_missing_fails_not_found ⟨[⟨1, "a@b.c", 0, 0⟩], 2⟩ 5 "x@y.z"
    (by decide) (by decide)

/-- C7: `Delete` succeeds for every id, matched or not, and is idempotent
(deleting twice leaves the same state as deleting once); after a
successful `Delete`, `GetByID` on that id fails and classifies as
`NotFound`. -/
theorem C7_delete_idempotent_then_get_not_found (st : DBState) (id : Int) :
    ∃ st', delete st id = .ok st'
      ∧ delete st' id = .ok st'
      ∧ ∃ e, getByID st' id = .error e ∧ classify e = ErrNotFound := by
  refine ⟨⟨st.rows.filter (fun u => !(u.id == id)), st.nextId⟩, rfl, ?_, ?_⟩
  · have hself : (st.rows.filter (fun u => !(u.id == id))).filter
        (fun u => !(u.id == id)) = st.rows.filter (fun u => !(u.id == id)) :=
      List.filter_eq_self.mpr (fun a ha => (List.mem_filter.mp ha).2)
    simp only [delete]
    rw [hself]
  · refine ⟨.wrap "failed to get user by id" .noRows, ?_, rfl⟩
    have hnone : (st.rows.filter (fun u => !(u.id == id))).find?
        (fun u => u.id == id) = none := by
      rw [List.find?_eq_none]
      intro u hu
      have := (List.mem_filter.mp hu).2
      simpa using this
    rw [getByID]
    simp only [hnone]

/-- C4: `List(limit, offset)` never errors; it returns exactly the table
sorted by `created_at` descending with the first `offset` rows skipped
and at most `limit` rows kept, the page is itself sorted descending, its
length is `min limit (total - offset)` (so no server-side cap shrinks
`limit`), and a range beyond the available rows yields the empty page. -/
theorem C4_list_pagination (st : DBState) (limit offset : Nat) :
    ∃ us, list st limit offset = .ok us
      ∧ us = ((st.rows.mergeSort createdDesc).drop offset).take limit
      ∧ us.Pairwise (fun a b => b.createdAt ≤ a.createdAt)
      ∧ us.length = min limit (st.rows.length - offset)
      ∧ (st.rows.length ≤ offset → us = []) := by
  refine ⟨_, rfl, rfl, ?_, ?_, ?_⟩
  · have hsorted : (st.rows.mergeSort createdDesc).Pairwise
        (fun a b => createdDesc a b) :=
      List.sorted_mergeSort
        (fun a b c hab hbc => by
          simp only [createdDesc, decide_eq_true_eq] at *
          exact Nat.le_trans hbc hab)
        (fun a b => by
          simp only [createdDesc, Bool.or_eq_true, decide_eq_true_eq]
          exact Nat.le_total b.createdAt a.createdAt)
        st.rows
    have hsub : (((st.rows.mergeSort createdDesc).drop offset).take limit).Sublist
        (st.rows.mergeSort createdDesc) :=
      (List.take_sublist _ _).trans (List.drop_sublist _ _)
    exact (hsorted.sublist hsub).imp (by
      intro a b h
      simpa [createdDesc] using h)
  · simp
  · intro hle
    have : (st.rows.mergeSort createdDesc).drop offset = [] := by
      rw [List.drop_eq_nil_iff]
      simpa using hle
    simp [this]

/-- C4 witness: three users created in order A, B, C; `List(2,0)` returns
`[C, B]` and `List(2,2)` returns `[A]` (the spec's §8 example), matching
the instantiated pagination theorem. -/
theorem C4_list_pagination_witness :
    ∃ us, list ⟨[⟨1, "a@x", 1, 1⟩, ⟨2, "b@x", 2, 2⟩, ⟨3, "c@x", 3, 3⟩], 4⟩ 2 2 = .ok us
      ∧ us = ((([⟨1, "a@x", 1, 1⟩, ⟨2, "b@x", 2, 2⟩,
          (⟨3, "c@x", 3, 3⟩ : User)] : List User).mergeSort createdDesc).drop 2).take 2
      ∧ us.Pairwise (fun a b => b.createdAt ≤ a.createdAt)
      ∧ us.length = min 2 (([⟨1, "a@x", 1, 1⟩, ⟨2, "b@x", 2, 2⟩,
          (⟨3, "c@x", 3, 3⟩ : User)] : List User).length - 2)
      ∧ (([⟨1, "a@x", 1, 1⟩, ⟨2, "b@x", 2, 2⟩,
          (⟨3, "c@x", 3, 3⟩ : User)] : List User).length ≤ 2 → us = []) :=
  C4_list_pagination ⟨[⟨1, "a@x", 1, 1⟩, ⟨2, "b@x", 2, 2⟩, ⟨3, "c@x", 3, 3⟩], 4⟩ 2 2

/-- C5: on a well-formed table without the email, `Create` returns a user
with the given email, a server-assigned id (the sequence value; whatever
id the input carried is ignored) and `created_at = updated_at`; a
subsequent `GetByID` on the returned id finds a user with that email. -/
theorem C5_create_roundtrip (st : DBState) (now : Nat) (user : User)
    (hwf : st.WF)
    (hemail : ∀ u ∈ st.rows, u.email ≠ user.email) :
    ∃ cu st', create st now user = .ok (cu, st')
      ∧ cu.email = user.email
      ∧ cu.createdAt = cu.updatedAt
      ∧ cu.id = st.nextId
      ∧ (∀ i : Int, create st now { user with id := i } = create st now user)
      ∧ ∃ u2, getByID st' cu.id = .ok u2 ∧ u2.email = user.email := by
  have hany : st.rows.any (fun u => u.email == user.email) = false := by
    rw [List.any_eq_false]
    intro u hu
    simpa using hemail u hu
  refine ⟨⟨st.nextId, user.email, now, now⟩,
    ⟨st.rows ++ [⟨st.nextId, user.email, now, now⟩], st.nextId + 1⟩,
    ?_, rfl, rfl, rfl, fun i => rfl, ?_⟩
  · rw [create]
    simp [hany]
  · have hnone : st.rows.find?
        (fun u => u.id == (⟨st.nextId, user.email, now, now⟩ : User).id) = none := by
      rw [List.find?_eq_none]
      intro u hu
      have := hwf.1 u hu
      simp only [beq_iff_eq]
      omega
    refine ⟨⟨st.nextId, user.email, now, now⟩, ?_, rfl⟩
    rw [getByID]
    simp only [List.find?_append, hnone, Option.none_or, List.find?_cons,
      beq_self_eq_true, List.find?_nil]

/-- C5 witness: inserting `e@x` into the empty table at tick 5. -/
theorem C5_create_roundtrip_witness :
    ∃ cu st', create ⟨[], 1⟩ 5 ⟨0, "e@x", 0, 0⟩ = .ok (cu, st')
      ∧ cu.email = (⟨0, "e@x", 0, 0⟩ : User).email
      ∧ cu.createdAt = cu.updatedAt
      ∧ cu.id = (⟨[], 1⟩ : DBState).nextId
      ∧ (∀ i : Int, create ⟨[], 1⟩ 5 { (⟨0, "e@x", 0, 0⟩ : User) with id := i }
          = create ⟨[], 1⟩ 5 ⟨0, "e@x", 0, 0⟩)
      ∧ ∃ u2, getByID st' cu.id = .ok u2
          ∧ u2.email = (⟨0, "e@x", 0, 0⟩ : User).email :=
  C5_create_roundtrip ⟨[], 1⟩ 5 ⟨0, "e@x", 0, 0⟩ ⟨by simp, by simp⟩ (by simp)

/-- C6: when a row with the input's id exists (found by the `WHERE id`
match) and the statement clock is ahead of that row's `updated_at`,
`Update` succeeds and the returned row keeps the stored id and
`created_at`, takes the new email, and has `updated_at = NOW()` strictly
after the old one; the table changes only at rows matching the id (each
such row changes only in `email`/`updated_at`), every other row is kept;
when no row matches, `Update` fails. -/
theorem C6_update_frame (st : DBState) (now : Nat) (user : User) :
    (∀ old, st.rows.find? (fun u => u.id == user.id) = some old →
        old.updatedAt < now →
        ∃ u' st', update st now user = .ok (u', st')
          ∧ u'.id = user.id ∧ u'.id = old.id
          ∧ u'.createdAt = old.createdAt
          ∧ u'.email = user.email
          ∧ u'.updatedAt = now
          ∧ old.updatedAt < u'.updatedAt
          ∧ st'.nextId = st.nextId
          ∧ st'.rows = st.rows.map (fun u =>
              if u.id == user.id
              then { u with email := user.email, updatedAt := now } else u)
          ∧ (∀ u ∈ st.rows, u.id ≠ user.id → u ∈ st'.rows))
    ∧ (st.rows.find? (fun u => u.id == user.id) = none →
        update st now user = .error (.wrap "failed to update user" .noRows)) := by
  constructor
  · intro old hfind hlt
    have hid : old.id = user.id := by
      simpa using List.find?_some hfind
    refine ⟨{ old with email := user.email, updatedAt := now },
      ⟨st.rows.map (fun u =>
        if u.id == user.id
        then { u with email := user.email, updatedAt := now } else u), st.nextId⟩,
      ?_, hid, rfl, rfl, rfl, rfl, hlt, rfl, rfl, ?_⟩
    · rw [update, hfind]
    · intro u hu hne
      exact List.mem_map.mpr ⟨u, hu, by simp [hne]⟩
  · intro hnone
    rw [update, hnone]

/-- C6 witness: one stored row `(1, a@x, created 0, updated 0)`, updated
at tick 5 to email `new@x`; and the failure branch on the empty table. -/
theorem C6_update_frame_witness :
    (∃ u' st', update ⟨[⟨1, "a@x", 0, 0⟩], 2⟩ 5 ⟨1, "new@x", 9, 9⟩ = .ok (u', st')
      ∧ u'.id = (⟨1, "new@x", 9, 9⟩ : User).id
      ∧ u'.id = (⟨1, "a@x", 0, 0⟩ : User).id
      ∧ u'.createdAt = (⟨1, "a@x", 0, 0⟩ : User).createdAt
      ∧ u'.email = (⟨1, "new@x", 9, 9⟩ : User).email
      ∧ u'.updatedAt = 5
      ∧ (⟨1, "a@x", 0, 0⟩ : User).updatedAt < u'.updatedAt
      ∧ st'.nextId = (⟨[⟨1, "a@x", 0, 0⟩], 2⟩ : DBState).nextId
      ∧ st'.rows = (⟨[⟨1, "a@x", 0, 0⟩], 2⟩ : DBState).rows.map (fun u =>
          if u.id == (⟨1, "new@x", 9, 9⟩ : User).id
          then { u with email := (⟨1, "new@x", 9, 9⟩ : User).email, updatedAt := 5 }
          else u)
      ∧ (∀ u ∈ (⟨[⟨1, "a@x", 0, 0⟩], 2⟩ : DBState).rows,
          u.id ≠ (⟨1, "new@x", 9, 9⟩ : User).id → u ∈ st'.rows))
    ∧ update ⟨[], 7⟩ 5 ⟨1, "new@x", 9, 9⟩
        = .error (.wrap "failed to update user" .noRows) :=
  ⟨(C6_update_frame ⟨[⟨1, "a@x", 0, 0⟩], 2⟩ 5 ⟨1, "new@x", 9, 9⟩).1
      ⟨1, "a@x", 0, 0⟩ (by decide) (by decide),
    (C6_update_frame ⟨[], 7⟩ 5 ⟨1, "new@x", 9, 9⟩).2 (by decide)⟩

/-! ## internal/libs/validator.go

The go-playground validator is an external collaborator: its verdict on a
struct is abstracted as the `ValidationErrors` value it hands back —
`none` when `validate.Struct` returned `nil` or a non-`ValidationErrors`
error (e.g. `InvalidValidationError`), `some vs` for a `ValidationErrors`
slice `vs`. `ValidateStruct` and `getErrorMessage` are embedded from the
source. -/

/-- One `validator.FieldError`: the reported field name (`v.Field()`), the
failed tag (`v.Tag()`), and the tag parameter (`v.Param()`). -/
structure FieldError where
  field : String
  tag : String
  param : String
deriving DecidableEq, Repr

/-- Go's `strings.ToLower` on the ASCII field names the validator
reports: per-character lowering. -/
def toLowerAscii (s : String) : String := ⟨s.data.map Char.toLower⟩

/-- Function `getErrorMessage` from validator.go: user-friendly messages
for the `required`/`email`/`min`/`gte` tags, `""` for every other tag. -/
def getErrorMessage (v : FieldError) : String :=
  if v.tag = "required" then v.field ++ " is required"
  else if v.tag = "email" then v.field ++ " is not a valid email"
  else if v.tag = "min" then v.field ++ " must be at least " ++ v.param ++ " characters"
  else if v.tag = "gte" then v.field ++ " must be " ++ v.param ++ " or greater"
  else ""

/-- A Go `map[string]string` as an association list without duplicate
keys: assignment overwrites an existing key in place, otherwise appends. -/
abbrev GoMap := List (String × String)

/-- Map assignment `m[k] = v`. -/
def GoMap.assign (m : GoMap) (k v : String) : GoMap :=
  if m.any (fun p => p.1 == k) then
    m.map (fun p => if p.1 == k then (k, v) else p)
  else m ++ [(k, v)]

/-- Map read `m[k]` (the missing-key case as `none`). -/
def GoMap.read (m : GoMap) (k : String) : Option String :=
  (m.find? (fun p => p.1 == k)).map Prod.snd

/-- Function `ValidateStruct` from validator.go: collect
`errors[strings.ToLower(v.Field())] = getErrorMessage(v)` over the
`ValidationErrors` (nothing is collected when the validator returned `nil`
or a non-`ValidationErrors` error), and return the map when non-empty,
`nil` otherwise. -/
def ValidateStruct (valErrs : Option (List FieldError)) : Option GoMap :=
  let errors : GoMap :=
    match valErrs with
    | some vs => vs.foldl (fun m v => GoMap.assign m (toLowerAscii v.field) (getErrorMessage v)) ([] : GoMap)
    | none => []
  if errors.length > 0 then some errors else none

/-- Overwriting assignment: when the key is present, `find?` on the
rewritten list lands on the first occurrence, now holding the new value. -/
theorem GoMap.find?_map_overwrite (m : GoMap) (k v : String)
    (h : m.any (fun p => p.1 == k) = true) :
    (m.map (fun p => if p.1 == k then (k, v) else p)).find? (fun p => p.1 == k)
      = some (k, v) := by
  induction m with
  | nil => simp at h
  | cons p ps ih =>
      by_cases hp : p.1 = k
      · simp [List.find?_cons, hp]
      · have h' : ps.any (fun p => p.1 == k) = true := by
          simpa [List.any_cons, hp] using h
        simpa [List.find?_cons, hp] using ih h'

/-- Overwriting assignment leaves lookups of every other key unchanged. -/
theorem GoMap.find?_map_other (m : GoMap) (k v k' : String) (h : k ≠ k') :
    (m.map (fun p => if p.1 == k then (k, v) else p)).find? (fun p => p.1 == k')
      = m.find? (fun p => p.1 == k') := by
  induction m with
  | nil => rfl
  | cons p ps ih =>
      rw [List.map_cons]
      by_cases hp : p.1 = k
      · have h1 : (if (p.1 == k) = true then (k, v) else p) = (k, v) := by
          simp [hp]
        rw [h1, List.find?_cons_of_neg _ (by simpa using h),
          List.find?_cons_of_neg _ (by simp [hp, h])]
        exact ih
      · have h1 : (if (p.1 == k) = true then (k, v) else p) = p := by
          simp [hp]
        rw [h1]
        by_cases hpk : p.1 = k'
        · rw [List.find?_cons_of_pos _ (by simpa using hpk),
            List.find?_cons_of_pos _ (by simpa using hpk)]
        · rw [List.find?_cons_of_neg _ (by simpa using hpk),
            List.find?_cons_of_neg _ (by simpa using hpk)]
          exact ih

/-- Reading the assigned key returns the assigned value. -/
theorem GoMap.read_assign_self (m : GoMap) (k v : String) :
    (m.assign k v).read k = some v := by
  rw [GoMap.assign]
  cases hany : m.any (fun p => p.1 == k) with
  | true =>
      simp only [hany, if_true]
      rw [GoMap.read, GoMap.find?_map_overwrite m k v hany]
      rfl
  | false =>
      have hnone : m.find? (fun p => p.1 == k) = none := by
        rw [List.find?_eq_none]
        intro p hp
        simpa using List.any_eq_false.mp hany p hp
      simp [hany, GoMap.read, List.find?_append, hnone]

/-- Reading any other key is unaffected by an assignment. -/
theorem GoMap.read_assign_ne (m : GoMap) (k v k' : String) (h : k ≠ k') :
    (m.assign k v).read k' = m.read k' := by
  rw [GoMap.assign]
  cases hany : m.any (fun p => p.1 == k) with
  | true =>
      simp only [hany, if_true]
      rw [GoMap.read, GoMap.find?_map_other m k v k' h, GoMap.read]
  | false =>
      have hk : (k == k') = false := by
        simpa using h
      simp [hany, GoMap.read, List.find?_append, List.find?_cons, hk]

/-- The map collected by `ValidateStruct`'s fold reads, at each key, the
message of the last field error with that lowercased name (later
assignments overwrite earlier ones); keys never written read through to
the initial map. -/
theorem GoMap.read_foldl_assign (vs : List FieldError) (m : GoMap) (k : String) :
    GoMap.read (vs.foldl (fun m v => GoMap.assign m (toLowerAscii v.field) (getErrorMessage v)) m) k
      = match vs.reverse.find? (fun v => toLowerAscii v.field == k) with
        | some v => some (getErrorMessage v)
        | none => GoMap.read m k := by
  induction vs generalizing m with
  | nil => simp
  | cons v vs ih =>
      rw [List.foldl_cons, ih, List.reverse_cons, List.find?_append]
      cases hf : vs.reverse.find? (fun w => toLowerAscii w.field == k) with
      | some w => simp [hf]
      | none =>
          by_cases hk : toLowerAscii v.field = k
          · subst hk
            simp [hf, List.find?_cons, GoMap.read_assign_self]
          · have hkb : (toLowerAscii v.field == k) = false := by
              simpa using hk
            simp [hf, List.find?_cons, hkb, GoMap.read_assign_ne m _ _ k hk]

/-- C10 counterexample: with two field errors sharing the lowercased name
`port` — as the repository's own `Config` produces from
`DatabaseConfig.Port` and `ServerConfig.Port` — the later `required`
message overwrites the empty message of the earlier unknown tag `oneof`,
so the field failing the unknown tag is *not* mapped to the empty string. -/
theorem C10_unknown_tag_overwritten_counterexample :
    ValidateStruct (some [⟨"Port", "oneof", ""⟩, ⟨"Port", "required", ""⟩])
      = some [("port", "Port is required")]
    ∧ (⟨"Port", "oneof", ""⟩ : FieldError).tag
        ∉ (["required", "email", "min", "gte"] : List String)
    ∧ GoMap.read [("port", "Port is required")]
        (toLowerAscii (⟨"Port", "oneof", ""⟩ : FieldError).field) ≠ some "" := by
  decide

/-- C10 amended: `ValidateStruct` returns `nil` exactly when the validator
reported no field errors; otherwise it returns a non-empty map whose keys
are exactly the lowercased names of the failing fields, where each key
holds the message of the *last* reported field error with that lowercased
name — so a field failing a tag other than
`required`/`email`/`min`/`gte` is mapped to the empty string precisely
when no later field error shares its lowercased name. -/
theorem C10_amended_validate_struct (valErrs : Option (List FieldError)) :
    (ValidateStruct valErrs = none ↔ ∀ vs, valErrs = some vs → vs = [])
    ∧ (∀ vs, valErrs = some vs → vs ≠ [] →
        ∃ m, ValidateStruct valErrs = some m
          ∧ m ≠ []
          ∧ (∀ k, (∃ v ∈ vs, toLowerAscii v.field = k) ↔ (GoMap.read m k).isSome = true)
          ∧ (∀ k, GoMap.read m k
              = (vs.reverse.find? (fun v => toLowerAscii v.field == k)).map getErrorMessage)
          ∧ (∀ v ∈ vs, v.tag ∉ (["required", "email", "min", "gte"] : List String) →
              vs.reverse.find? (fun w => toLowerAscii w.field == toLowerAscii v.field)
                = some v →
              GoMap.read m (toLowerAscii v.field) = some "")) := by
  cases valErrs with
  | none =>
      constructor
      · simp [ValidateStruct]
      · intro vs hvs
        cases hvs
  | some vs =>
      have hread : ∀ k,
          GoMap.read (vs.foldl
            (fun m v => GoMap.assign m (toLowerAscii v.field) (getErrorMessage v)) ([] : GoMap)) k
          = (vs.reverse.find? (fun v => toLowerAscii v.field == k)).map getErrorMessage := by
        intro k
        rw [GoMap.read_foldl_assign vs [] k]
        cases hf : vs.reverse.find? (fun v => toLowerAscii v.field == k) <;>
          simp [GoMap.read]
      have herrs : ∀ hvne : vs ≠ [],
          vs.foldl (fun m v => GoMap.assign m (toLowerAscii v.field) (getErrorMessage v)) ([] : GoMap)
            ≠ [] := by
        intro hvne hnil
        obtain ⟨v, hv⟩ := List.exists_mem_of_ne_nil vs hvne
        have h1 := hread (toLowerAscii v.field)
        rw [hnil] at h1
        have h2 : vs.reverse.find? (fun w => toLowerAscii w.field == toLowerAscii v.field)
            ≠ none := by
          rw [Ne, List.find?_eq_none]
          intro hall
          exact hall v (List.mem_reverse.mpr hv) (by simp)
        cases hf : vs.reverse.find? (fun w => toLowerAscii w.field == toLowerAscii v.field) with
        | none => exact h2 hf
        | some w =>
            rw [hf] at h1
            simp [GoMap.read] at h1
      constructor
      · simp only [ValidateStruct]
        constructor
        · intro h vs' hvs'
          injection hvs' with hvs'
          subst hvs'
          by_contra hvne
          have hpos : 0 < (vs.foldl
              (fun m v => GoMap.assign m (toLowerAscii v.field) (getErrorMessage v)) ([] : GoMap)).length :=
            List.length_pos.mpr (herrs hvne)
          rw [if_pos hpos] at h
          cases h
        · intro h
          have hv : vs = [] := h vs rfl
          subst hv
          simp
      · intro vs' hvs' hvne
        injection hvs' with hvs'
        subst hvs'
        have hpos : 0 < (vs.foldl
            (fun m v => GoMap.assign m (toLowerAscii v.field) (getErrorMessage v)) ([] : GoMap)).length :=
          List.length_pos.mpr (herrs hvne)
        refine ⟨_, ?_, herrs hvne, ?_, hread, ?_⟩
        · simp only [ValidateStruct]
          rw [if_pos hpos]
        · intro k
          rw [hread k]
          constructor
          · rintro ⟨v, hv, hk⟩
            cases hf : vs.reverse.find? (fun w => toLowerAscii w.field == k) with
            | some w => simp
            | none =>
                exfalso
                have := List.find?_eq_none.mp hf v (List.mem_reverse.mpr hv)
                exact this (by simpa using hk)
          · intro hs
            cases hf : vs.reverse.find? (fun w => toLowerAscii w.field == k) with
            | none => rw [hf] at hs; simp at hs
            | some w =>
                refine ⟨w, List.mem_reverse.mp (List.mem_of_find?_eq_some hf), ?_⟩
                simpa using List.find?_some hf
        · intro v hv htag hlast
          rw [hread, hlast]
          have hmsg : getErrorMessage v = "" := by
            simp only [List.mem_cons, List.mem_singleton, not_or] at htag
            obtain ⟨h1, h2, h3, h4, _⟩ := htag
            rw [getErrorMessage]
            simp [h1, h2, h3, h4]
          simp [hmsg]

/-- C10 amended witness: instantiated at the colliding pair from the
counterexample — `port` reads the later `required` message, and the
`oneof` error is indeed not the last error for its lowercased name. -/
theorem C10_amended_validate_struct_witness :
    (ValidateStruct (some [⟨"Port", "oneof", ""⟩, ⟨"Port", "required", ""⟩]) = none
      ↔ ∀ vs, (some [⟨"Port", "oneof", ""⟩, ⟨"Port", "required", ""⟩]
          : Option (List FieldError)) = some vs → vs = [])
    ∧ (∀ vs, (some [⟨"Port", "oneof", ""⟩, ⟨"Port", "required", ""⟩]
          : Option (List FieldError)) = some vs → vs ≠ [] →
        ∃ m, ValidateStruct (some [⟨"Port", "oneof", ""⟩, ⟨"Port", "required", ""⟩]) = some m
          ∧ m ≠ []
          ∧ (∀ k, (∃ v ∈ vs, toLowerAscii v.field = k) ↔ (GoMap.read m k).isSome = true)
          ∧ (∀ k, GoMap.read m k
              = (vs.reverse.find? (fun v => toLowerAscii v.field == k)).map getErrorMessage)
          ∧ (∀ v ∈ vs, v.tag ∉ (["required", "email", "min", "gte"] : List String) →
              vs.reverse.find? (fun w => toLowerAscii w.field == toLowerAscii v.field)
                = some v →
              GoMap.read m (toLowerAscii v.field) = some "")) :=
  C10_amended_validate_struct (some [⟨"Port", "oneof", ""⟩, ⟨"Port", "required", ""⟩])

/-! ## internal/config/config.go and cmd/go-boilerplate/main.go

`LoadConfig` loads environment variables through koanf, unmarshal them
into `Config`, and validates the result; every failure path calls
`logger.Fatal()` (which exits the process), so the only normal return is
`(mainConfig, nil)`. The koanf collaborator's two results (env-provider
load and unmarshal) are the inputs of the model; `libs.ValidateStruct`'s
verdict on the unmarshalled `Config` is computed from the struct's
`validate:"required"` tags. -/

/-- Struct `AuthConfig` (config.go); `secret_key` is `required`. -/
structure AuthConfig where
  secretKey : String
deriving DecidableEq, Repr

/-- Struct `CoreConfig` (config.go); `env` is `required`. -/
structure CoreConfig where
  env : String
deriving DecidableEq, Repr

/-- Struct `ServerConfig` (config.go); every field is `required`. -/
structure ServerConfig where
  port : String
  readTimeout : Int
  writeTimeout : Int
  idleTimeout : Int
  corsAllowedOrigins : List String
deriving DecidableEq, Repr

/-- Struct `RedisConfig` (config.go); `address` is `required`. -/
structure RedisConfig where
  address : String
deriving DecidableEq, Repr

/-- Struct `DatabaseConfig` (config.go); every field is `required`. -/
structure DatabaseConfig where
  host : String
  port : String
  user : String
  password : String
  name : String
  sslMode : String
  maxOpenConns : String
  maxIdleConns : String
  connMaxLifetime : String
  connMaxIdletime : String
deriving DecidableEq, Repr

/-- Struct `Config` (config.go): the five `required` sections. -/
structure Config where
  auth : AuthConfig
  core : CoreConfig
  database : DatabaseConfig
  redis : RedisConfig
  server : ServerConfig
deriving DecidableEq, Repr

/-- The `validate:"required"` verdicts on `Config`'s leaf fields: the
go-playground validator reports a `required` field error for every field
holding its zero value (empty string, `0` int, empty slice). The
struct-level `required` tags on the five sections fail only when a
section is entirely zero, which the leaf checks already witness. -/
def configFieldErrors (c : Config) : List FieldError :=
  (if c.auth.secretKey = "" then [⟨"SecretKey", "required", ""⟩] else [])
  ++ (if c.core.env = "" then [⟨"Env", "required", ""⟩] else [])
  ++ (if c.database.host = "" then [⟨"Host", "required", ""⟩] else [])
  ++ (if c.database.port = "" then [⟨"Port", "required", ""⟩] else [])
  ++ (if c.database.user = "" then [⟨"User", "required", ""⟩] else [])
  ++ (if c.database.password = "" then [⟨"Password", "required", ""⟩] else [])
  ++ (if c.database.name = "" then [⟨"Name", "required", ""⟩] else [])
  ++ (if c.database.sslMode = "" then [⟨"SSLMode", "required", ""⟩] else [])
  ++ (if c.database.maxOpenConns = "" then [⟨"MaxOpenConns", "required", ""⟩] else [])
  ++ (if c.database.maxIdleConns = "" then [⟨"MaxIdleConns", "required", ""⟩] else [])
  ++ (if c.database.connMaxLifetime = "" then [⟨"ConnMaxLifetime", "required", ""⟩] else [])
  ++ (if c.database.connMaxIdletime = "" then [⟨"ConnMaxIdletime", "required", ""⟩] else [])
  ++ (if c.redis.address = "" then [⟨"Address", "required", ""⟩] else [])
  ++ (if c.server.port = "" then [⟨"Port", "required", ""⟩] else [])
  ++ (if c.server.readTimeout = 0 then [⟨"ReadTimeout", "required", ""⟩] else [])
  ++ (if c.server.writeTimeout = 0 then [⟨"WriteTimeout", "required", ""⟩] else [])
  ++ (if c.server.idleTimeout = 0 then [⟨"IdleTimeout", "required", ""⟩] else [])
  ++ (if c.server.corsAllowedOrigins = [] then [⟨"CORSAllowedOrigins", "required", ""⟩] else [])

/-- Validation of the unmarshalled config, as `libs.ValidateStruct`
delivers it to `LoadConfig`. -/
def validateConfig (c : Config) : Option GoMap :=
  ValidateStruct (some (configFieldErrors c))

/-- What a `LoadConfig` call does to the process: `logger.Fatal()` exits,
otherwise the function returns a `(*Config, error)` pair. -/
inductive LoadOutcome where
  | fatalExit
  | ret (cfg : Option Config) (err : Option String)
deriving DecidableEq, Repr

/-- Function `LoadConfig` from config.go: load the `API_`-prefixed
environment and unmarshal into `mainConfig` — those two failure branches
call `logger.Fatal()...Msg(...)`, whose `Msg` dispatch runs zerolog's
fatal finalizer (`os.Exit(1)`), so they never return. The validation
branch, however, is `logger.Fatal().Err(nil).Fields(err)` with no
`Msg`/`Send`: the fatal event is built but never dispatched, zerolog
never exits, the branch has no control-flow effect, and the function
falls through to `return mainConfig, nil` even when validation failed.
The koanf env-provider and unmarshal results are the model's inputs. -/
def LoadConfig (envLoad : Except String Unit) (unmarshal : Except String Config) :
    LoadOutcome :=
  match envLoad with
  | .error _ => .fatalExit
  | .ok _ =>
    match unmarshal with
    | .error _ => .fatalExit
    | .ok mainConfig =>
      match validateConfig mainConfig with
      | some _ => .ret (some mainConfig) none
      | none => .ret (some mainConfig) none

/-- Outcome of `main`'s startup prefix: the process exits (fatal path) or
the server stack is constructed from a loaded config. -/
inductive MainOutcome where
  | exited
  | started (cfg : Config)
deriving DecidableEq, Repr

/-- The startup prefix of `main` (main.go): `cfg, err :=
config.LoadConfig(); if err != nil { log.Fatalf(...) }`; afterwards the
logger, router, middleware chain and server are constructed from `cfg`.
(A `nil` config with a `nil` error would fault before any server starts;
C9 shows that path is never produced.) -/
def mainStartup (envLoad : Except String Unit) (unmarshal : Except String Config) :
    MainOutcome :=
  match LoadConfig envLoad unmarshal with
  | .fatalExit => .exited
  | .ret cfg err =>
    match err with
    | some _ => .exited
    | none =>
      match cfg with
      | some c => .started c
      | none => .exited

/-- An all-zero configuration: every `required` field fails. -/
def zeroConfig : Config :=
  ⟨⟨""⟩, ⟨""⟩, ⟨"", "", "", "", "", "", "", "", "", ""⟩, ⟨""⟩, ⟨"", 0, 0, 0, []⟩⟩

/-- C3: the claim states the spec's intent ("on validation failure the
process must not start"), and the sibling branches show the code's own
intent (`logger.Fatal()` with a dispatched `Msg` exits) — but the
validation branch omits `Msg`/`Send`, so zerolog never runs the fatal
finalizer. Evaluated at the all-zero configuration, which fails
validation: `LoadConfig` returns it with a nil error and `main` proceeds
to construct and start the server from the invalid configuration. -/
theorem C3_invalid_config_still_starts :
    validateConfig zeroConfig ≠ none
    ∧ LoadConfig (.ok ()) (.ok zeroConfig) = .ret (some zeroConfig) none
    ∧ mainStartup (.ok ()) (.ok zeroConfig) = .started zeroConfig := by
  decide

/-- C9: on every execution path on which `LoadConfig` returns to its
caller rather than exiting the process, the error result is `nil` and the
config result is non-nil — so the `if err != nil` branch in `main` can
never fire, and `main` proceeds to construct the server from the returned
config. -/
theorem C9_load_config_return_implies_success (envLoad : Except String Unit)
    (unmarshal : Except String Config) (cfg : Option Config) (err : Option String)
    (h : LoadConfig envLoad unmarshal = .ret cfg err) :
    err = none ∧ (∃ c, cfg = some c ∧ mainStartup envLoad unmarshal = .started c) := by
  cases envLoad with
  | error e => cases h
  | ok u =>
      cases unmarshal with
      | error e => cases h
      | ok c =>
          have hc : LoadConfig (.ok u) (.ok c) = .ret (some c) none := by
            rw [LoadConfig]
            cases validateConfig c <;> rfl
          rw [hc] at h
          injection h with h1 h2
          subst h1
          subst h2
          exact ⟨rfl, c, rfl, by simp [mainStartup, hc]⟩

/-- A fully-populated configuration: every `required` field is non-zero. -/
def sampleConfig : Config :=
  ⟨⟨"secret"⟩, ⟨"development"⟩,
   ⟨"localhost", "5432", "postgres", "postgres", "app", "disable", "10", "5", "1h", "30m"⟩,
   ⟨"localhost:6379"⟩, ⟨"8080", 5, 10, 60, ["*"]⟩⟩

/-- C9 witness: loading `sampleConfig` returns `(cfg, nil)` with a
non-nil config and `main` starts the server from it. -/
theorem C9_load_config_return_implies_success_witness :
    (none : Option String) = none
    ∧ (∃ c, (some sampleConfig : Option Config) = some c
        ∧ mainStartup (.ok ()) (.ok sampleConfig) = .started c) :=
  C9_load_config_return_implies_success (.ok ()) (.ok sampleConfig)
    (some sampleConfig) none (by decide)

/-! ## internal/routers/router.go

`Router.ServeHTTP` delegates verbatim to the `http.ServeMux` that
`SetupRoutes` fills with the Go 1.22 patterns `"GET /health"` and
`"GET /api/v1/status"`. The stdlib mux semantics embedded here:

* for a non-CONNECT request whose path is not canonical (per the mux's
  `cleanPath`), the mux answers 301 Moved Permanently towards the cleaned
  path before any matching;
* a pattern matches its own method, and a GET pattern additionally
  matches HEAD; the registered patterns are exact paths (no trailing
  slash, so no subtree matching and no trailing-slash redirect arises);
* a canonical path matching no pattern gets the stdlib `NotFound`
  response: 404, `text/plain; charset=utf-8`, body `404 page not found`;
* a canonical path that matches a pattern only under other methods gets
  405 Method Not Allowed (`http.Error` body, with an `Allow` header that,
  like all headers other than `Content-Type` and the redirect target, is
  outside the response model).

The model is a total function: every request receives a complete
response and none faults. For HEAD dispatch the handler runs and its
written status/headers stand (net/http suppresses only the body bytes on
the wire). -/

/-- The response a handler writes: status, `Content-Type`, body. -/
structure HTTPResponse where
  status : Nat
  contentType : String
  body : String
deriving DecidableEq, Repr

/-- Handler `healthCheckHandler` (router.go): 200, JSON body. -/
def healthCheckHandler : HTTPResponse :=
  ⟨200, "application/json",
    "\x7b\"status\":\"healthy\",\"service\":\"go-boilerplate\"\x7d"⟩

/-- Handler `statusHandler` (router.go): 200, JSON body. -/
def statusHandler : HTTPResponse :=
  ⟨200, "application/json", "\x7b\"status\":\"running\",\"version\":\"1.0.0\"\x7d"⟩

/-- Go stdlib `http.NotFound` response, written by the mux for a
canonical path matching no pattern. -/
def muxNotFoundResponse : HTTPResponse :=
  ⟨404, "text/plain; charset=utf-8", "404 page not found\n"⟩

/-- Go 1.22 stdlib mux response for a registered path under an
unregistered method (`http.Error` with `StatusText(405)`). -/
def muxMethodNotAllowedResponse : HTTPResponse :=
  ⟨405, "text/plain; charset=utf-8", "Method Not Allowed\n"⟩

/-- Go stdlib redirect written by `RedirectHandler(target, 301)`: the
`Location` header carries the target; an HTML body naming the target is
written only for GET requests (non-GET redirects carry no body and set
no `Content-Type`, modelled as `""`). -/
def movedPermanentlyResponse (method target : String) : HTTPResponse :=
  if method = "GET" then
    ⟨301, "text/html; charset=utf-8",
      "<a href=\"" ++ target ++ "\">Moved Permanently</a>.\n\n"⟩
  else ⟨301, "", ""⟩

/-- Split a character list at every `/` (the pieces between slashes). -/
def splitSegs : List Char → List (List Char)
  | [] => [[]]
  | c :: cs =>
      let rest := splitSegs cs
      if c = '/' then [] :: rest
      else
        match rest with
        | seg :: more => (c :: seg) :: more
        | [] => [[c]]

/-- The element processing of `path.Clean` on a rooted path: empty
segments and `.` are dropped, `..` pops the previous segment (and is
dropped at the root). -/
def cleanSegments (segs : List (List Char)) : List (List Char) :=
  segs.foldl (fun acc seg =>
    if seg = [] ∨ seg = ['.'] then acc
    else if seg = ['.', '.'] then acc.dropLast
    else acc ++ [seg]) []

/-- Go `net/http`'s `cleanPath`: empty becomes `/`, a leading slash is
ensured, `path.Clean` is applied, and a trailing slash (other than the
root's) is restored. -/
def cleanPath (p : String) : String :=
  if p = "" then "/"
  else
    let q : List Char := if p.data.head? = some '/' then p.data else '/' :: p.data
    let segs := cleanSegments (splitSegs q)
    let np : String :=
      if segs = [] then "/" else ⟨segs.foldl (fun acc seg => acc ++ '/' :: seg) []⟩
    if q.getLast? = some '/' ∧ np ≠ "/" then np ++ "/" else np

/-- Mux dispatch over the registered patterns, for a path the mux did not
redirect: exact path match, pattern method or HEAD-for-GET, stdlib
404/405 otherwise. -/
def serveMuxHandler (method path : String) : HTTPResponse :=
  if path = "/health" then
    if method = "GET" ∨ method = "HEAD" then healthCheckHandler
    else muxMethodNotAllowedResponse
  else if path = "/api/v1/status" then
    if method = "GET" ∨ method = "HEAD" then statusHandler
    else muxMethodNotAllowedResponse
  else muxNotFoundResponse

/-- Method `Router.ServeHTTP`: the mux first 301-redirects a non-CONNECT
request whose path is not canonical, then dispatches. -/
def ServeHTTP (method path : String) : HTTPResponse :=
  if method ≠ "CONNECT" ∧ cleanPath path ≠ path then
    movedPermanentlyResponse method (cleanPath path)
  else
    serveMuxHandler method path

/-- The (method, path) patterns `SetupRoutes` registers. -/
def registeredRoutes : List (String × String) :=
  [("GET", "/health"), ("GET", "/api/v1/status")]

/-- Whether some registered pattern matches the method and path under
Go 1.22 matching: a pattern's method matches itself, and a GET pattern
also matches HEAD. -/
def matchesRoute (method path : String) : Bool :=
  registeredRoutes.any (fun r =>
    (r.1 == method || (r.1 == "GET" && method == "HEAD")) && r.2 == path)

/-- Whether some registered pattern mentions the path (under any method). -/
def pathRegistered (path : String) : Bool :=
  registeredRoutes.any (fun r => r.2 == path)

/-- Modelled from the spec's words (§6/§7): in this API a JSON response
carries the `application/json` content type and a brace-delimited object
body — the shape of every body the spec documents. Stated from the spec
to compare its "minimal JSON body" against the code's unmatched-request
responses. -/
def isJsonResponse (r : HTTPResponse) : Bool :=
  r.contentType == "application/json" && r.body.startsWith "\x7b"

/-- Sanity check of the embedded Go 1.22 method rule: the `GET /health`
pattern also matches a HEAD request, which is served by the health
handler rather than refused. -/
theorem head_request_served_by_get_pattern :
    matchesRoute "HEAD" "/health" = true
    ∧ ServeHTTP "HEAD" "/health" = healthCheckHandler := by
  decide

/-- C8 counterexample: `GET /nope` matches no route and does get a 404,
but the body is the stdlib plain-text one, not JSON; worse, `POST
/health` also matches no registered route yet receives 405, not 404. The
claim "every unmatched method+path receives a 404 with a minimal JSON
body" is false on both counts. -/
theorem C8_unmatched_counterexample :
    matchesRoute "GET" "/nope" = false
    ∧ (ServeHTTP "GET" "/nope").status = 404
    ∧ isJsonResponse (ServeHTTP "GET" "/nope") = false
    ∧ (ServeHTTP "GET" "/nope").contentType = "text/plain; charset=utf-8"
    ∧ matchesRoute "POST" "/health" = false
    ∧ (ServeHTTP "POST" "/health").status = 405 := by
  decide

/-- C8 amended: an unmatched request never faults and never gets a JSON
body. A non-CONNECT request with a non-canonical path is 301-redirected
to the cleaned path; a canonical (or CONNECT) request whose path matches
no registered pattern gets the stdlib 404 plain-text response
(`404 page not found`, `text/plain`); one whose path is registered but
whose method matches no pattern (counting HEAD as matched by GET) gets
the stdlib 405 response. -/
theorem C8_unmatched_gets_stdlib_response (method path : String)
    (h : matchesRoute method path = false) :
    (method ≠ "CONNECT" → cleanPath path ≠ path →
      ServeHTTP method path = movedPermanentlyResponse method (cleanPath path))
    ∧ (method = "CONNECT" ∨ cleanPath path = path →
      (pathRegistered path = false → ServeHTTP method path = muxNotFoundResponse)
      ∧ (pathRegistered path = true → ServeHTTP method path = muxMethodNotAllowedResponse)) := by
  constructor
  · intro h1 h2
    rw [ServeHTTP, if_pos ⟨h1, h2⟩]
  · intro hdisp
    have hcond : ¬(method ≠ "CONNECT" ∧ cleanPath path ≠ path) := by
      rcases hdisp with hc | hc
      · intro hcontra
        exact hcontra.1 hc
      · intro hcontra
        exact hcontra.2 hc
    rw [ServeHTTP, if_neg hcond]
    constructor
    · intro hp
      have hp1 : path ≠ "/health" := by
        intro hc
        subst hc
        simp [pathRegistered, registeredRoutes] at hp
      have hp2 : path ≠ "/api/v1/status" := by
        intro hc
        subst hc
        simp [pathRegistered, registeredRoutes] at hp
      rw [serveMuxHandler, if_neg hp1, if_neg hp2]
    · intro hp
      have hp' : path = "/health" ∨ path = "/api/v1/status" := by
        have := by simpa [pathRegistered, registeredRoutes] using hp
        rcases this with hc | hc
        · exact Or.inl hc.symm
        · exact Or.inr hc.symm
      rcases hp' with hpath | hpath
      · subst hpath
        have hm : ¬(method = "GET" ∨ method = "HEAD") := by
          rintro (hc | hc) <;> subst hc <;>
            simp [matchesRoute, registeredRoutes] at h
        rw [serveMuxHandler, if_pos rfl, if_neg hm]
      · subst hpath
        have hm : ¬(method = "GET" ∨ method = "HEAD") := by
          rintro (hc | hc) <;> subst hc <;>
            simp [matchesRoute, registeredRoutes] at h
        have hne : ("/api/v1/status" : String) ≠ "/health" := by decide
        rw [serveMuxHandler, if_neg hne, if_pos rfl, if_neg hm]

/-- C8 amended witness: the unregistered path `/nope` gets the stdlib 404
response, `POST` on the registered `/health` gets 405, and the
non-canonical `//health` is 301-redirected to `/health`. -/
theorem C8_unmatched_gets_stdlib_response_witness :
    ServeHTTP "GET" "/nope" = muxNotFoundResponse
    ∧ ServeHTTP "POST" "/health" = muxMethodNotAllowedResponse
    ∧ ServeHTTP "GET" "//health" = movedPermanentlyResponse "GET" "/health" :=
  ⟨((C8_unmatched_gets_stdlib_response "GET" "/nope" (by decide)).2
      (Or.inr (by decide))).1 (by decide),
   ((C8_unmatched_gets_stdlib_response "POST" "/health" (by decide)).2
      (Or.inr (by decide))).2 (by decide),
   ((C8_unmatched_gets_stdlib_response "GET" "//health" (by decide)).1
      (by decide) (by decide)).trans (by decide)⟩

end Boilerplate
